import Mathlib

/-!
Verification of the armada-jupyter submission-translation layer
(`armada_jupyter/submissions.py`).

The Python module is shallowly embedded below. YAML values and the dynamic
Python values flowing through the translation layer are modelled by the
`Yaml` inductive; Python exceptions are modelled by the `PyError` type and
fallible code returns `Except PyError _`. `open`/`yaml.load` are external
collaborators per the spec, so `get_submissions` is modelled from the parsed
document onward.
-/

set_option maxHeartbeats 1000000

/-- Python exceptions observable in the translation layer. Python raises a
plain `ValueError` with a message for all the domain errors, so they are
distinguished by message, exactly as in the source. -/
inductive PyError where
  | indexError
  | typeError
  | keyError
  | attributeError
  | valueError (msg : String)
deriving DecidableEq, Repr

/-- Dynamic values: a parsed YAML document, and also the dynamic Python
values (str / int / None / list / dict) that the translation layer passes
around. Dicts are association lists in insertion order. -/
inductive Yaml where
  | null
  | int (n : Int)
  | str (s : String)
  | list (xs : List Yaml)
  | dict (kvs : List (String × Yaml))

/-- Python truthiness (`bool(x)`) for the dynamic values we model. -/
def Yaml.truthy : Yaml → Bool
  | .null => false
  | .int n => n ≠ 0
  | .str s => s ≠ ""
  | .list xs => !xs.isEmpty
  | .dict kvs => !kvs.isEmpty

/-- Python `x is None`. -/
def Yaml.isNull : Yaml → Bool
  | .null => true
  | _ => false

/-- Dict lookup, `d[k]` as an Option. -/
def dictFind (kvs : List (String × Yaml)) (k : String) : Option Yaml :=
  (kvs.find? (fun p => p.1 == k)).map (·.2)

/-- Python `d.get(k, default)`. -/
def dictGet (kvs : List (String × Yaml)) (k : String) (d : Yaml) : Yaml :=
  (dictFind kvs k).getD d

/-- Python `k in d`. -/
def hasKey (kvs : List (String × Yaml)) (k : String) : Bool :=
  kvs.any (fun p => p.1 == k)

/-- Key removal, the effect of `d.pop(k, None)` on the dict. -/
def eraseKey (kvs : List (String × Yaml)) (k : String) : List (String × Yaml) :=
  kvs.filter (fun p => p.1 != k)

/-- Digit-string value: `foldl` accumulation of decimal digits, the value
computed by Python `int` on a plain digit string. -/
def digitsVal (cs : List Char) : Nat :=
  cs.foldl (fun a c => 10 * a + (c.toNat - 48)) 0

/-- Parse a nonempty all-digit character list, else fail. -/
def parseDigits (cs : List Char) : Option Nat :=
  if !cs.isEmpty && cs.all Char.isDigit then some (digitsVal cs) else none

/-- Sign handling of Python `int(s)`: optional single sign followed by
decimal digits. -/
def pyParseIntList : List Char → Option Int
  | [] => none
  | c :: rest =>
    if c = '-' then (parseDigits rest).map (fun m => -(m : Int))
    else if c = '+' then (parseDigits rest).map (fun m => (m : Int))
    else (parseDigits (c :: rest)).map (fun m => (m : Int))

/-- Python `int(s)` on a string: optional single sign followed by decimal
digits. (The builtin additionally strips surrounding whitespace and allows
underscore digit grouping; no behaviour verified here depends on those.) -/
def pyParseInt (s : String) : Option Int :=
  pyParseIntList s.data

/-- Python `str(x)` on the dynamic values we model. -/
def Yaml.pyStr : Yaml → String
  | .null => "None"
  | .int n => toString n
  | .str s => s
  | .list _ => "[...]"
  | .dict _ => "{...}"

/-- Python `int(x)` on a dynamic value: ints pass through, strings are
parsed (`ValueError` on failure), anything else is a `TypeError`. -/
def pyIntOf : Yaml → Except PyError Int
  | .int n => .ok n
  | .str s =>
    match pyParseInt s with
    | some n => .ok n
    | none => .error (.valueError "invalid literal for int")
  | _ => .error .typeError

/-- Message of the ValueError raised by `int()` on a malformed string. -/
def IntParseError : PyError := .valueError "invalid literal for int"

/-- Error raised at `submissions.py:123` for an unrecognized unit suffix. -/
def InvalidTimeoutFormat : PyError :=
  .valueError "Timeout must be in the form of [x]h, [x]m or [x]s"

/-- Python `s[-1]`: last character, `IndexError` when empty. -/
def strLast (s : String) : Except PyError Char :=
  match s.data.getLast? with
  | some c => .ok c
  | none => .error .indexError

/-- Python `s[:-1]`: drop the last character. -/
def strDropLast (s : String) : String :=
  ⟨s.data.dropLast⟩

/-- Embeds `Submission.timeout_conversion` (`submissions.py:106-123`):
convert `{n}m` / `{n}h` into seconds, pass `...s` through unchanged,
otherwise raise the invalid-format ValueError. `timeout[-1]` raises an
IndexError on the empty string, and `int(timeout[:-1])` raises its own
ValueError on a non-numeric prefix. -/
def timeout_conversion (timeout : String) : Except PyError String := do
  let c ← strLast timeout
  if c = 'm' then
    match pyParseInt (strDropLast timeout) with
    | some n => .ok (toString (n * 60) ++ "s")
    | none => .error IntParseError
  else if c = 'h' then
    match pyParseInt (strDropLast timeout) with
    | some n => .ok (toString (n * 60 * 60) ++ "s")
    | none => .error IntParseError
  else if c = 's' then
    .ok timeout
  else
    .error InvalidTimeoutFormat

/-- Modelled from the spec: the `YMLSTR` key-name constants live in
`armada_jupyter/constants.py`, which is not part of the sources here; the
key names are those listed in spec section 6 (external interfaces). -/
def YMLSTR.submissions : String := "submissions"

def YMLSTR.name : String := "name"

def YMLSTR.image : String := "image"

def YMLSTR.armada_queue : String := "armada_queue"

def YMLSTR.armada_priority : String := "armada_priority"

def YMLSTR.timeout : String := "timeout"

def YMLSTR.resources : String := "resources"

def YMLSTR.limits : String := "limits"

def YMLSTR.requests : String := "requests"

def YMLSTR.cpu : String := "cpu"

def YMLSTR.memory : String := "memory"

def YMLSTR.nvidia_gpu : String := "nvidia_gpu"

def YMLSTR.amd_gpu : String := "amd_gpu"

/-- Modelled from the spec: default queue constant from
`armada_jupyter/constants.py` (not in the sources); spec section 6 says the
default values are owned by configuration, so the concrete value is a
placeholder and no verified claim depends on it. -/
def DEFAULT_QUEUE : Yaml := .str "default"

/-- Modelled from the spec: default priority constant (see `DEFAULT_QUEUE`). -/
def DEFAULT_PRIORITY : Yaml := .int 1

/-- Modelled from the spec: default timeout constant (see `DEFAULT_QUEUE`);
a valid duration string per spec section 4.1. -/
def DEFAULT_TIMEOUT : Yaml := .str "1h"

/-- Modelled from the spec: default cpu constant (see `DEFAULT_QUEUE`). -/
def DEFAULT_CPU : Yaml := .int 1

/-- Modelled from the spec: default memory constant (see `DEFAULT_QUEUE`). -/
def DEFAULT_MEMORY : Yaml := .str "1Gi"

/-- Embeds `api_resource.Quantity(string=...)`: a wire-format quantity is a
wrapped string. -/
structure Quantity where
  string : String
deriving DecidableEq, Repr

/-- Error raised at `submissions.py:38` when both accelerators are set. -/
def ConflictingAccelerators : PyError :=
  .valueError "Both nvidia_gpu and amd_gpu cannot be set at the same time."

/-- An accelerator field of `K8sResourceOptions` after `__init__`: truthy
inputs are replaced by `Quantity(str(v))` (`submissions.py:43-47`), falsy
inputs are kept as the raw dynamic value. -/
inductive GpuVal where
  | raw (v : Yaml)
  | quantity (q : Quantity)

/-- Python truthiness of a stored accelerator field: a `Quantity` protobuf
object is always truthy; a raw value has its own truthiness. -/
def GpuVal.truthy : GpuVal → Bool
  | .raw v => v.truthy
  | .quantity _ => true

/-- Embeds the state of `K8sResourceOptions` (`submissions.py:20-47`) after
a successful `__init__`. -/
structure K8sResourceOptions where
  cpu : Quantity
  memory : Quantity
  nvidia_gpu : GpuVal
  amd_gpu : GpuVal

/-- Storage of one accelerator argument (`submissions.py:43-47`). -/
def gpuStore (v : Yaml) : GpuVal :=
  if v.truthy then .quantity ⟨v.pyStr⟩ else .raw v

/-- Embeds `K8sResourceOptions.__init__` (`submissions.py:25-47`):
`cpu` becomes `Quantity(str(cpu))`, `memory` becomes `Quantity(memory)`,
and setting both accelerators raises. -/
def K8sResourceOptions.init (cpu : Int) (memory : String)
    (nvidia_gpu amd_gpu : Yaml) : Except PyError K8sResourceOptions :=
  if nvidia_gpu.truthy && amd_gpu.truthy then
    .error ConflictingAccelerators
  else
    .ok { cpu := ⟨toString cpu⟩, memory := ⟨memory⟩,
          nvidia_gpu := gpuStore nvidia_gpu, amd_gpu := gpuStore amd_gpu }

/-- Error raised at `submissions.py:67` and `submissions.py:202`. -/
def MissingResourceSection : PyError :=
  .valueError "Must specify both limits and requests"

/-- Embeds the state of `K8sResources` (`submissions.py:58-70`). -/
structure K8sResources where
  limits : K8sResourceOptions
  requests : K8sResourceOptions

/-- Embeds `K8sResources.__init__` (`submissions.py:63-70`). Note that line
70 of the source assigns `limits` to `self.requests`; the `requests`
argument is validated but never stored. -/
def K8sResources.init (limits requests : Option K8sResourceOptions) :
    Except PyError K8sResources :=
  match limits, requests with
  | some l, some _r => .ok { limits := l, requests := l }
  | _, _ => .error MissingResourceSection

/-- Embeds the body of the per-section loop of `k8s_resources_from_dict`
(`submissions.py:205-217`): build a `K8sResourceOptions` from one section
dict, defaulting cpu and memory. A non-dict section value has no `.get`,
hence `AttributeError`. -/
def optionsFromSection (d : Yaml) : Except PyError K8sResourceOptions :=
  match d with
  | .dict kvs => do
    let cpu ← pyIntOf (dictGet kvs YMLSTR.cpu DEFAULT_CPU)
    let memory := (dictGet kvs YMLSTR.memory DEFAULT_MEMORY).pyStr
    K8sResourceOptions.init cpu memory
      (dictGet kvs YMLSTR.nvidia_gpu .null) (dictGet kvs YMLSTR.amd_gpu .null)
  | _ => .error .attributeError

/-- Embeds `k8s_resources_from_dict` (`submissions.py:191-222`): raise if
either section is `None`, otherwise build both sections and the pair.
(The `needs_changed is None` branch inside the source loop is unreachable
after the guard at line 201 and has no counterpart here.) -/
def k8s_resources_from_dict (limits requests : Yaml) :
    Except PyError K8sResources := do
  if limits.isNull || requests.isNull then
    .error MissingResourceSection
  else
    let l ← optionsFromSection limits
    let r ← optionsFromSection requests
    K8sResources.init (some l) (some r)

/-- Embeds the state of `Submission` (`submissions.py:79-104`). Python
stores the constructor arguments dynamically, so the scalar fields are kept
as dynamic values; `timeout` is the string returned by
`timeout_conversion`. -/
structure Submission where
  name : Yaml
  image : Yaml
  armada_queue : Yaml
  armada_priority : Yaml
  timeout : String
  resources : Option K8sResources

/-- Subscripting `timeout[-1]` requires a string; any other dynamic value
raises a `TypeError` before `timeout_conversion` logic runs. -/
def timeout_conversionDyn : Yaml → Except PyError String
  | .str s => timeout_conversion s
  | _ => .error .typeError

/-- Embeds `Submission.__init__` (`submissions.py:84-104`): the timeout is
normalized at construction. The `isinstance` check on `resources` is
satisfied by typing (`Option K8sResources`). -/
def Submission.init (name image armada_queue armada_priority timeout : Yaml)
    (resources : Option K8sResources) : Except PyError Submission := do
  let t ← timeout_conversionDyn timeout
  .ok { name := name, image := image, armada_queue := armada_queue,
        armada_priority := armada_priority, timeout := t,
        resources := resources }

/-- Embeds `Submission.resources_from_dict` (`submissions.py:125-135`):
delegate the two sections of the `resources` dict to
`k8s_resources_from_dict` and store the result. `.get` on a non-dict is an
`AttributeError`. -/
def Submission.resources_from_dict (s : Submission) (resources : Yaml) :
    Except PyError Submission :=
  match resources with
  | .dict kvs => do
    let r ← k8s_resources_from_dict
      (dictGet kvs YMLSTR.limits .null) (dictGet kvs YMLSTR.requests .null)
    .ok { s with resources := some r }
  | _ => .error .attributeError

/-- A value of a podspec resource map: cpu and memory entries hold
`Quantity` values; an accelerator entry holds whatever the stored
accelerator field is. -/
inductive ResVal where
  | quant (q : Quantity)
  | raw (v : Yaml)

/-- The dynamic value a stored accelerator field contributes to a resource
map. -/
def GpuVal.toResVal : GpuVal → ResVal
  | .quantity q => .quant q
  | .raw v => .raw v

/-- Embeds `core_v1.SecurityContext`. -/
structure SecurityContext where
  runAsUser : Int
deriving DecidableEq, Repr

/-- Embeds `core_v1.ResourceRequirements`: the requests and limits maps in
insertion order. -/
structure ResourceRequirements where
  requests : List (String × ResVal)
  limits : List (String × ResVal)

/-- Embeds `core_v1.Container` as far as `to_podspec` populates it. -/
structure Container where
  name : Yaml
  image : Yaml
  securityContext : SecurityContext
  resources : ResourceRequirements

/-- Embeds `core_v1.PodSpec` as far as `to_podspec` populates it. -/
structure PodSpec where
  activeDeadlineSeconds : String
  containers : List Container

/-- The resource map of one `K8sResourceOptions` side, in the insertion
order of `to_podspec` (`submissions.py:154-174`): cpu, memory, then the
truthy accelerators. -/
def resourceMap (o : K8sResourceOptions) : List (String × ResVal) :=
  let base := [(YMLSTR.cpu, ResVal.quant o.cpu), (YMLSTR.memory, ResVal.quant o.memory)]
  let withNvidia :=
    if o.nvidia_gpu.truthy then base ++ [(YMLSTR.nvidia_gpu, o.nvidia_gpu.toResVal)]
    else base
  if o.amd_gpu.truthy then withNvidia ++ [(YMLSTR.amd_gpu, o.amd_gpu.toResVal)]
  else withNvidia

/-- Embeds `Submission.to_podspec` (`submissions.py:145-188`): empty
requests/limits maps unless `self.resources` is set (a `K8sResources`
object is always truthy), one container, fixed `runAsUser=1000` security
context, active deadline from the stored (already normalized) timeout. -/
def Submission.to_podspec (s : Submission) : PodSpec :=
  let maps : List (String × ResVal) × List (String × ResVal) :=
    match s.resources with
    | Option.none => ([], [])
    | some r => (resourceMap r.requests, resourceMap r.limits)
  { activeDeadlineSeconds := s.timeout,
    containers := [{ name := s.name, image := s.image,
                     securityContext := { runAsUser := 1000 },
                     resources := { requests := maps.1, limits := maps.2 } }] }

/-- Error raised at `submissions.py:243` for a missing mandatory key. -/
def MissingMandatoryKey (k : String) : PyError :=
  .valueError ("Missing mandatory key " ++ k)

/-- Embeds one iteration of the loop of `get_submissions`
(`submissions.py:235-262`): pop `resources`, check the mandatory keys in
order, build the `Submission` with defaults for the optional keys, then
attach resources when the popped value is truthy. An entry that is not a
dict has no `.pop`, hence `AttributeError`. -/
def processEntry (entry : Yaml) : Except PyError Submission :=
  match entry with
  | .dict kvs =>
    let resources := dictGet kvs YMLSTR.resources .null
    let kvs := eraseKey kvs YMLSTR.resources
    if !hasKey kvs YMLSTR.name then
      .error (MissingMandatoryKey YMLSTR.name)
    else if !hasKey kvs YMLSTR.image then
      .error (MissingMandatoryKey YMLSTR.image)
    else do
      let s ← Submission.init (dictGet kvs YMLSTR.name .null)
        (dictGet kvs YMLSTR.image .null)
        (dictGet kvs YMLSTR.armada_queue DEFAULT_QUEUE)
        (dictGet kvs YMLSTR.armada_priority DEFAULT_PRIORITY)
        (dictGet kvs YMLSTR.timeout DEFAULT_TIMEOUT)
        Option.none
      if resources.truthy then s.resources_from_dict resources else .ok s
  | _ => .error .attributeError

/-- Embeds `get_submissions` (`submissions.py:225-264`) from the parsed
YAML document onward (the file read and `yaml.load` are external
collaborators per the spec scope): index the top-level submissions key,
then process the entries in document order, stopping at the first error.
(Python iteration over a non-list value is not modelled; no claim depends
on it.) -/
def get_submissions (config : Yaml) : Except PyError (List Submission) :=
  match config with
  | .dict kvs =>
    match dictFind kvs YMLSTR.submissions with
    | Option.none => .error .keyError
    | some (.list entries) => entries.mapM processEntry
    | some _ => .error .typeError
  | _ => .error .typeError

/-- Big-endian decimal digit list of a natural number; reference function
used to relate the core printer `Nat.repr` to the digit parser. -/
def natDigits (n : Nat) : List Char :=
  if _h : n < 10 then [Nat.digitChar n]
  else natDigits (n / 10) ++ [Nat.digitChar (n % 10)]
termination_by n
decreasing_by exact Nat.div_lt_self (by omega) (by omega)

/-- Limits options used as the C1 failing input. -/
def optLim : K8sResourceOptions :=
  { cpu := ⟨"1"⟩, memory := ⟨"1Gi"⟩, nvidia_gpu := .raw .null,
    amd_gpu := .raw .null }

/-- Requests options used as the C1 failing input, distinct from `optLim`. -/
def optReq : K8sResourceOptions :=
  { cpu := ⟨"2"⟩, memory := ⟨"2Gi"⟩, nvidia_gpu := .raw .null,
    amd_gpu := .raw .null }

/-- Submission with no resources, used in witness checks. -/
def subPlain : Submission :=
  { name := .str "nb", image := .str "img", armada_queue := .str "q",
    armada_priority := .int 1, timeout := "600s",
    resources := Option.none }

/-- Resource pair whose requests side has an nvidia accelerator set, used
in witness checks. -/
def pairNvidia : K8sResources :=
  { limits := { cpu := ⟨"1"⟩, memory := ⟨"1Gi"⟩,
                nvidia_gpu := .quantity ⟨"1"⟩, amd_gpu := .raw .null },
    requests := { cpu := ⟨"1"⟩, memory := ⟨"1Gi"⟩,
                  nvidia_gpu := .quantity ⟨"1"⟩, amd_gpu := .raw .null } }

/-- Submission carrying `pairNvidia`, used in witness checks. -/
def subWithRes : Submission :=
  { subPlain with resources := some pairNvidia }

/-- Concrete result of processing the entry carrying only name and image,
used in witness checks. -/
def subDefaults : Submission :=
  { name := .str "n", image := .str "i", armada_queue := DEFAULT_QUEUE,
    armada_priority := DEFAULT_PRIORITY, timeout := "3600s",
    resources := Option.none }

/-- The single Submission produced by the C8 document. -/
def subC8 : Submission :=
  { name := .str "nb", image := .str "img:tag",
    armada_queue := DEFAULT_QUEUE, armada_priority := DEFAULT_PRIORITY,
    timeout := "600s", resources := Option.none }

theorem toDigitsCore_eq_natDigits (fuel : Nat) :
    ∀ (n : Nat) (ds : List Char), n < fuel →
      Nat.toDigitsCore 10 fuel n ds = natDigits n ++ ds := by
  induction fuel with
  | zero => intro n ds h; omega
  | succ f ih =>
    intro n ds h
    unfold Nat.toDigitsCore
    by_cases h10 : n / 10 = 0
    · have hn : n < 10 := by omega
      rw [natDigits, dif_pos hn, if_pos h10, Nat.mod_eq_of_lt hn]
      rfl
    · have hn : ¬ n < 10 := by omega
      rw [if_neg h10, ih (n / 10) _ (by omega)]
      conv_rhs => rw [natDigits, dif_neg hn]
      rw [List.append_assoc]
      rfl

theorem repr_data_eq_natDigits (n : Nat) : (Nat.repr n).data = natDigits n := by
  show (List.asString (Nat.toDigitsCore 10 (n + 1) n [])).data = natDigits n
  rw [toDigitsCore_eq_natDigits (n + 1) n [] (by omega), List.append_nil]
  rfl

theorem digitChar_props :
    ∀ k : Nat, k < 10 →
      (Nat.digitChar k).isDigit = true ∧ ((Nat.digitChar k).toNat - 48) = k ∧
      Nat.digitChar k ≠ '-' ∧ Nat.digitChar k ≠ '+' := by decide

theorem natDigits_ne_nil (n : Nat) : natDigits n ≠ [] := by
  rw [natDigits]
  split
  · simp
  · simp

theorem natDigits_all_digits (n : Nat) :
    (natDigits n).all Char.isDigit = true := by
  induction n using Nat.strong_induction_on with
  | _ n ih =>
    rw [natDigits]
    split
    · rename_i h
      simp [(digitChar_props n h).1]
    · rename_i h
      rw [List.all_append]
      have hdiv : n / 10 < n := Nat.div_lt_self (by omega) (by omega)
      simp [ih (n / 10) hdiv, (digitChar_props (n % 10) (Nat.mod_lt n (by omega))).1]

theorem digitsVal_append_digit (cs : List Char) (c : Char) :
    digitsVal (cs ++ [c]) = 10 * digitsVal cs + (c.toNat - 48) := by
  unfold digitsVal
  rw [List.foldl_append]
  rfl

theorem digitsVal_natDigits (n : Nat) : digitsVal (natDigits n) = n := by
  induction n using Nat.strong_induction_on with
  | _ n ih =>
    rw [natDigits]
    split
    · rename_i h
      have := (digitChar_props n h).2.1
      unfold digitsVal
      simp only [List.foldl_cons, List.foldl_nil]
      omega
    · rename_i h
      have hdiv : n / 10 < n := Nat.div_lt_self (by omega) (by omega)
      rw [digitsVal_append_digit, ih (n / 10) hdiv,
        (digitChar_props (n % 10) (Nat.mod_lt n (by omega))).2.1]
      omega

theorem parseDigits_natDigits (n : Nat) : parseDigits (natDigits n) = some n := by
  unfold parseDigits
  have h1 : (natDigits n).isEmpty = false := by
    cases h : natDigits n with
    | nil => exact absurd h (natDigits_ne_nil n)
    | cons c cs => rfl
  rw [h1, natDigits_all_digits n]
  simp [digitsVal_natDigits n]

theorem pyParseInt_natRepr (m : Nat) :
    pyParseInt (Nat.repr m) = some (m : Int) := by
  unfold pyParseInt
  rw [repr_data_eq_natDigits]
  obtain ⟨c, cs, hcons⟩ : ∃ c cs, natDigits m = c :: cs := by
    cases h : natDigits m with
    | nil => exact absurd h (natDigits_ne_nil m)
    | cons c cs => exact ⟨c, cs, rfl⟩
  have hdig : c.isDigit = true := by
    have hall := natDigits_all_digits m
    rw [hcons, List.all_cons, Bool.and_eq_true] at hall
    exact hall.1
  have hc1 : c ≠ '-' := by
    intro hEq
    rw [hEq] at hdig
    exact absurd hdig (by decide)
  have hc2 : c ≠ '+' := by
    intro hEq
    rw [hEq] at hdig
    exact absurd hdig (by decide)
  rw [hcons]
  show pyParseIntList (c :: cs) = some (m : Int)
  rw [pyParseIntList, if_neg hc1, if_neg hc2, ← hcons, parseDigits_natDigits]
  rfl

theorem pyParseInt_toString (n : Int) : pyParseInt (toString n) = some n := by
  cases n with
  | ofNat m => exact pyParseInt_natRepr m
  | negSucc m =>
    show pyParseInt ("-" ++ Nat.repr (m + 1)) = some (Int.negSucc m)
    unfold pyParseInt
    have hdata : ("-" ++ Nat.repr (m + 1)).data =
        '-' :: (Nat.repr (m + 1)).data := by
      rw [String.data_append]
      rfl
    rw [hdata]
    show pyParseIntList ('-' :: (Nat.repr (m + 1)).data) = some (Int.negSucc m)
    rw [pyParseIntList, if_pos rfl, repr_data_eq_natDigits, parseDigits_natDigits]
    simp [Int.negSucc_eq]

theorem strDropLast_append (s t : String) (c : Char) (h : t.data = [c]) :
    strDropLast (s ++ t) = s := by
  unfold strDropLast
  rw [String.data_append, h, List.dropLast_concat]

theorem timeout_conversion_eq (t : String) (c : Char)
    (h : t.data.getLast? = some c) :
    timeout_conversion t =
      (if c = 'm' then
        match pyParseInt (strDropLast t) with
        | some n => .ok (toString (n * 60) ++ "s")
        | Option.none => .error IntParseError
      else if c = 'h' then
        match pyParseInt (strDropLast t) with
        | some n => .ok (toString (n * 60 * 60) ++ "s")
        | Option.none => .error IntParseError
      else if c = 's' then .ok t
      else .error InvalidTimeoutFormat) := by
  unfold timeout_conversion strLast
  rw [h]
  rfl

/-- C4: for every integer n, the timeout normalizer maps "{n}m" to
"{n*60}s", maps "{n}h" to "{n*3600}s", and maps "{n}s" to itself. -/
theorem C4_unit_conversion (n : Int) :
    timeout_conversion (toString n ++ "m") = .ok (toString (n * 60) ++ "s") ∧
    timeout_conversion (toString n ++ "h") = .ok (toString (n * 3600) ++ "s") ∧
    timeout_conversion (toString n ++ "s") = .ok (toString n ++ "s") := by
  refine ⟨?_, ?_, ?_⟩
  · have hL : (toString n ++ "m").data.getLast? = some 'm' := by
      rw [String.data_append]
      exact List.getLast?_concat _
    rw [timeout_conversion_eq _ 'm' hL, if_pos rfl,
      strDropLast_append _ "m" 'm' rfl, pyParseInt_toString]
  · have hL : (toString n ++ "h").data.getLast? = some 'h' := by
      rw [String.data_append]
      exact List.getLast?_concat _
    rw [timeout_conversion_eq _ 'h' hL, if_neg (by decide), if_pos rfl,
      strDropLast_append _ "h" 'h' rfl, pyParseInt_toString]
    show (Except.ok (toString (n * 60 * 60) ++ "s") : Except PyError String) =
      Except.ok (toString (n * 3600) ++ "s")
    have h36 : n * 60 * 60 = n * 3600 := by ring
    rw [h36]
  · have hL : (toString n ++ "s").data.getLast? = some 's' := by
      rw [String.data_append]
      exact List.getLast?_concat _
    rw [timeout_conversion_eq _ 's' hL, if_neg (by decide), if_neg (by decide),
      if_pos rfl]

/-- C3 counterexample: the input "xs" ends in the recognized suffix s with a
non-numeric prefix, yet the normalizer returns it unchanged instead of
raising the invalid-format error claimed. -/
theorem C3_counterexample :
    timeout_conversion "xs" = .ok "xs" ∧
    timeout_conversion "xs" ≠ .error InvalidTimeoutFormat := by
  exact ⟨by rfl, fun h => Except.noConfusion h⟩

/-- C3 (amended): for input with last character c, the invalid-format error
is raised exactly when c is outside {s,m,h}; an input ending in m or h whose
prefix is not a numeric integer raises the int-conversion ValueError (a
different error), and an input ending in s is returned unchanged with no
prefix validation at all. -/
theorem C3_suffix_validation (t : String) (c : Char)
    (h : t.data.getLast? = some c) :
    (c ∉ (['s', 'm', 'h'] : List Char) →
      timeout_conversion t = .error InvalidTimeoutFormat) ∧
    ((c = 'm' ∨ c = 'h') → pyParseInt (strDropLast t) = Option.none →
      timeout_conversion t = .error IntParseError) ∧
    (c = 's' → timeout_conversion t = .ok t) := by
  rw [timeout_conversion_eq t c h]
  refine ⟨?_, ?_, ?_⟩
  · intro hn
    have hs : c ≠ 's' := by intro hEq; exact hn (by rw [hEq]; simp)
    have hm : c ≠ 'm' := by intro hEq; exact hn (by rw [hEq]; simp)
    have hh : c ≠ 'h' := by intro hEq; exact hn (by rw [hEq]; simp)
    rw [if_neg hm, if_neg hh, if_neg hs]
  · rintro (rfl | rfl) hp
    · rw [if_pos rfl, hp]
    · rw [if_neg (by decide), if_pos rfl, hp]
  · rintro rfl
    rw [if_neg (by decide), if_neg (by decide), if_pos rfl]

theorem C3_suffix_validation_witness :
    timeout_conversion "5x" = .error InvalidTimeoutFormat ∧
    timeout_conversion "zzm" = .error IntParseError ∧
    timeout_conversion "7s" = .ok "7s" :=
  ⟨(C3_suffix_validation "5x" 'x' rfl).1 (by decide),
   (C3_suffix_validation "zzm" 'm' rfl).2.1 (Or.inl rfl) (by rfl),
   (C3_suffix_validation "7s" 's' rfl).2.2 rfl⟩

/-- C9: the timeout normalizer hits an IndexError (not the documented
invalid-format ValueError) on the empty string, and for nonempty input the
last-character and prefix accesses are in bounds, so an IndexError never
occurs. -/
theorem C9_nonempty_domain :
    timeout_conversion "" = .error .indexError ∧
    (∀ t : String, t ≠ "" → timeout_conversion t ≠ .error .indexError) := by
  refine ⟨by rfl, ?_⟩
  intro t ht
  have hdata : t.data ≠ [] := by
    intro hE
    exact ht (String.ext (by rw [hE]))
  cases hg : t.data.getLast? with
  | none => exact absurd (List.getLast?_eq_none_iff.mp hg) hdata
  | some c =>
    rw [timeout_conversion_eq t c hg]
    by_cases hm : c = 'm'
    · rw [if_pos hm]
      cases pyParseInt (strDropLast t) <;> simp [IntParseError]
    · rw [if_neg hm]
      by_cases hh : c = 'h'
      · rw [if_pos hh]
        cases pyParseInt (strDropLast t) <;> simp [IntParseError]
      · rw [if_neg hh]
        by_cases hs : c = 's'
        · rw [if_pos hs]
          simp
        · rw [if_neg hs]
          simp [InvalidTimeoutFormat]

theorem C9_nonempty_domain_witness :
    timeout_conversion "" = .error .indexError ∧
    timeout_conversion "3m" ≠ .error .indexError :=
  ⟨C9_nonempty_domain.1, C9_nonempty_domain.2 "3m" (by decide)⟩

/-- C1: the pair constructor conflates the two sides. Line 70 of
`submissions.py` assigns the limits object to `self.requests`, so with both
arguments present and distinct, the stored requests side equals the limits
input and the requests input is discarded — against both the spec and the
evident intent of the constructor (its `requests` parameter and `__repr__`). -/
theorem C1_requests_conflated :
    K8sResources.init (some optLim) (some optReq) =
      .ok { limits := optLim, requests := optLim } ∧
    optLim.cpu ≠ optReq.cpu :=
  ⟨rfl, by decide⟩

/-- C2 counterexample: with both sections absent the builder still raises
the MissingResourceSection error, contradicting the claim that a
both-absent call does not raise it. -/
theorem C2_counterexample :
    k8s_resources_from_dict .null .null = .error MissingResourceSection := by
  rfl

theorem pyIntOf_ne_missing (v : Yaml) :
    pyIntOf v ≠ .error MissingResourceSection := by
  unfold pyIntOf
  cases v with
  | null => simp [MissingResourceSection]
  | int n => simp
  | str s =>
    cases hp : pyParseInt s with
    | none => simp [hp, MissingResourceSection, IntParseError]
    | some n => simp [hp]
  | list xs => simp [MissingResourceSection]
  | dict kvs => simp [MissingResourceSection]

theorem optionsInit_ne_missing (cpu : Int) (memory : String) (ng ag : Yaml) :
    K8sResourceOptions.init cpu memory ng ag ≠ .error MissingResourceSection := by
  unfold K8sResourceOptions.init
  split
  · simp [MissingResourceSection, ConflictingAccelerators]
  · simp

theorem optionsFromSection_ne_missing (d : Yaml) :
    optionsFromSection d ≠ .error MissingResourceSection := by
  unfold optionsFromSection
  cases d with
  | null => simp [MissingResourceSection]
  | int n => simp [MissingResourceSection]
  | str s => simp [MissingResourceSection]
  | list xs => simp [MissingResourceSection]
  | dict kvs =>
    show (pyIntOf (dictGet kvs YMLSTR.cpu DEFAULT_CPU) >>= fun cpu =>
        K8sResourceOptions.init cpu
          (dictGet kvs YMLSTR.memory DEFAULT_MEMORY).pyStr
          (dictGet kvs YMLSTR.nvidia_gpu .null)
          (dictGet kvs YMLSTR.amd_gpu .null)) ≠
      .error MissingResourceSection
    intro hcontra
    cases hp : pyIntOf (dictGet kvs YMLSTR.cpu DEFAULT_CPU) with
    | error e =>
      rw [hp] at hcontra
      have h2 : (Except.error e : Except PyError K8sResourceOptions) =
          .error MissingResourceSection := hcontra
      injection h2 with he
      exact pyIntOf_ne_missing _ (hp.trans (by rw [he]))
    | ok cpu =>
      rw [hp] at hcontra
      have h2 : K8sResourceOptions.init cpu
          (dictGet kvs YMLSTR.memory DEFAULT_MEMORY).pyStr
          (dictGet kvs YMLSTR.nvidia_gpu .null)
          (dictGet kvs YMLSTR.amd_gpu .null) =
          .error MissingResourceSection := hcontra
      exact optionsInit_ne_missing _ _ _ _ h2

theorem k8s_from_dict_ne_missing_of_nonnull (limits requests : Yaml)
    (h1 : limits.isNull = false) (h2 : requests.isNull = false) :
    k8s_resources_from_dict limits requests ≠ .error MissingResourceSection := by
  unfold k8s_resources_from_dict
  rw [h1, h2]
  simp only [Bool.or_self]
  rw [if_neg (by simp)]
  intro hcontra
  cases hl : optionsFromSection limits with
  | error e =>
    rw [hl] at hcontra
    have h3 : (Except.error e : Except PyError K8sResources) =
        .error MissingResourceSection := hcontra
    injection h3 with he
    exact optionsFromSection_ne_missing limits (hl.trans (by rw [he]))
  | ok l =>
    rw [hl] at hcontra
    cases hr : optionsFromSection requests with
    | error e =>
      rw [hr] at hcontra
      have h3 : (Except.error e : Except PyError K8sResources) =
          .error MissingResourceSection := hcontra
      injection h3 with he
      exact optionsFromSection_ne_missing requests (hr.trans (by rw [he]))
    | ok r =>
      rw [hr] at hcontra
      have h3 : K8sResources.init (some l) (some r) =
          .error MissingResourceSection := hcontra
      exact absurd h3 (by unfold K8sResources.init; simp)

/-- C2 (amended): resource-pair construction from two optional dictionaries
raises the MissingResourceSection error exactly when at least one of the
two sections is absent; in particular a call with both absent also raises
it, so the implemented policy is stricter than both-or-neither. -/
theorem C2_missing_section_iff (limits requests : Yaml) :
    k8s_resources_from_dict limits requests = .error MissingResourceSection ↔
      (limits.isNull = true ∨ requests.isNull = true) := by
  constructor
  · intro h
    by_contra hn
    push_neg at hn
    have h1 : limits.isNull = false := by
      cases hq : limits.isNull
      · rfl
      · exact absurd hq hn.1
    have h2 : requests.isNull = false := by
      cases hq : requests.isNull
      · rfl
      · exact absurd hq hn.2
    exact k8s_from_dict_ne_missing_of_nonnull limits requests h1 h2 h
  · intro h
    unfold k8s_resources_from_dict
    rcases h with h | h
    · rw [h]
      simp
    · rw [h]
      simp

theorem C2_missing_section_iff_witness :
    k8s_resources_from_dict (.dict []) .null = .error MissingResourceSection :=
  (C2_missing_section_iff (.dict []) .null).mpr (Or.inr rfl)

/-- C5: resource-options construction raises the ConflictingAccelerators
error exactly when both accelerator arguments are supplied truthy, and with
at most one supplied it succeeds as a pure construction, storing quantity
representations. -/
theorem C5_conflicting_accelerators (cpu : Int) (memory : String)
    (ng ag : Yaml) :
    (ng.truthy = true → ag.truthy = true →
      K8sResourceOptions.init cpu memory ng ag = .error ConflictingAccelerators) ∧
    (¬(ng.truthy = true ∧ ag.truthy = true) →
      K8sResourceOptions.init cpu memory ng ag =
        .ok { cpu := ⟨toString cpu⟩, memory := ⟨memory⟩,
              nvidia_gpu := gpuStore ng, amd_gpu := gpuStore ag }) := by
  constructor
  · intro h1 h2
    unfold K8sResourceOptions.init
    rw [h1, h2]
    rfl
  · intro h
    unfold K8sResourceOptions.init
    have hb : (ng.truthy && ag.truthy) = false := by
      cases hn : ng.truthy <;> cases ha : ag.truthy <;> simp_all
    rw [hb]
    rfl

theorem C5_conflicting_accelerators_witness :
    K8sResourceOptions.init 1 "1Gi" (.int 1) (.str "1") =
      .error ConflictingAccelerators ∧
    K8sResourceOptions.init 1 "1Gi" (.int 1) .null =
      .ok { cpu := ⟨"1"⟩, memory := ⟨"1Gi"⟩,
            nvidia_gpu := .quantity ⟨"1"⟩, amd_gpu := .raw .null } :=
  ⟨(C5_conflicting_accelerators 1 "1Gi" (.int 1) (.str "1")).1 (by decide)
      (by decide),
   (C5_conflicting_accelerators 1 "1Gi" (.int 1) .null).2 (by decide)⟩

theorem resourceMap_keys (o : K8sResourceOptions) :
    YMLSTR.cpu ∈ (resourceMap o).map Prod.fst ∧
    YMLSTR.memory ∈ (resourceMap o).map Prod.fst ∧
    (YMLSTR.nvidia_gpu ∈ (resourceMap o).map Prod.fst ↔
      o.nvidia_gpu.truthy = true) ∧
    (YMLSTR.amd_gpu ∈ (resourceMap o).map Prod.fst ↔
      o.amd_gpu.truthy = true) := by
  unfold resourceMap
  by_cases hn : o.nvidia_gpu.truthy <;> by_cases ha : o.amd_gpu.truthy <;>
    simp [hn, ha, YMLSTR.cpu, YMLSTR.memory, YMLSTR.nvidia_gpu, YMLSTR.amd_gpu]

/-- C7: the podspec mapper sets the active deadline to the stored
(normalized) timeout, emits exactly one container carrying the fixed
non-root security context with runAsUser 1000, leaves both resource maps
empty when the submission has no resources, and with resources present each
map holds cpu and memory and holds an accelerator key exactly when the
corresponding stored accelerator option is set. -/
theorem C7_to_podspec (s : Submission) :
    (s.to_podspec).activeDeadlineSeconds = s.timeout ∧
    (s.to_podspec).containers.length = 1 ∧
    (∀ c ∈ (s.to_podspec).containers,
      c.securityContext.runAsUser = 1000) ∧
    (s.resources = Option.none →
      ∀ c ∈ (s.to_podspec).containers,
        c.resources.requests = [] ∧ c.resources.limits = []) ∧
    (∀ r, s.resources = some r →
      ∀ c ∈ (s.to_podspec).containers,
        (YMLSTR.cpu ∈ c.resources.requests.map Prod.fst ∧
         YMLSTR.memory ∈ c.resources.requests.map Prod.fst ∧
         YMLSTR.cpu ∈ c.resources.limits.map Prod.fst ∧
         YMLSTR.memory ∈ c.resources.limits.map Prod.fst) ∧
        (YMLSTR.nvidia_gpu ∈ c.resources.requests.map Prod.fst ↔
          r.requests.nvidia_gpu.truthy = true) ∧
        (YMLSTR.amd_gpu ∈ c.resources.requests.map Prod.fst ↔
          r.requests.amd_gpu.truthy = true) ∧
        (YMLSTR.nvidia_gpu ∈ c.resources.limits.map Prod.fst ↔
          r.limits.nvidia_gpu.truthy = true) ∧
        (YMLSTR.amd_gpu ∈ c.resources.limits.map Prod.fst ↔
          r.limits.amd_gpu.truthy = true)) := by
  refine ⟨rfl, ?_, ?_, ?_, ?_⟩
  · cases s.resources <;> rfl
  · intro c hc
    unfold Submission.to_podspec at hc
    simp only [List.mem_singleton] at hc
    rw [hc]
  · intro hres c hc
    unfold Submission.to_podspec at hc
    rw [hres] at hc
    simp only [List.mem_singleton] at hc
    rw [hc]
    exact ⟨rfl, rfl⟩
  · intro r hres c hc
    unfold Submission.to_podspec at hc
    rw [hres] at hc
    simp only [List.mem_singleton] at hc
    rw [hc]
    have hreq := resourceMap_keys r.requests
    have hlim := resourceMap_keys r.limits
    exact ⟨⟨hreq.1, hreq.2.1, hlim.1, hlim.2.1⟩,
      hreq.2.2.1, hreq.2.2.2, hlim.2.2.1, hlim.2.2.2⟩

theorem C7_to_podspec_witness :
    (subPlain.to_podspec).activeDeadlineSeconds = subPlain.timeout ∧
    (∀ c ∈ (subPlain.to_podspec).containers,
      c.resources.requests = [] ∧ c.resources.limits = []) ∧
    (subWithRes.to_podspec).containers.length = 1 ∧
    (∀ c ∈ (subWithRes.to_podspec).containers,
      YMLSTR.nvidia_gpu ∈ c.resources.requests.map Prod.fst ∧
      ¬ YMLSTR.amd_gpu ∈ c.resources.requests.map Prod.fst) :=
  ⟨(C7_to_podspec subPlain).1,
   (C7_to_podspec subPlain).2.2.2.1 rfl,
   (C7_to_podspec subWithRes).2.1,
   fun c hc =>
     ⟨(((C7_to_podspec subWithRes).2.2.2.2 pairNvidia rfl c hc).2.1).mpr rfl,
      fun hmem =>
        Bool.false_ne_true
          ((((C7_to_podspec subWithRes).2.2.2.2 pairNvidia rfl c hc).2.2.1).mp
            hmem)⟩⟩

/-- C10: an integer accelerator count of 0 is falsy and therefore treated
as unset — construction with 0 for both accelerators does not raise, and a
stored raw 0 accelerator is omitted from the podspec resource maps — while
the string "0" is truthy and counts as set both for the conflict check and
for the maps. -/
theorem C10_zero_accelerators (cpu : Int) (memory : String) :
    (K8sResourceOptions.init cpu memory (.int 0) (.int 0) =
      .ok { cpu := ⟨toString cpu⟩, memory := ⟨memory⟩,
            nvidia_gpu := .raw (.int 0), amd_gpu := .raw (.int 0) }) ∧
    (∀ o : K8sResourceOptions, o.nvidia_gpu = .raw (.int 0) →
      YMLSTR.nvidia_gpu ∉ (resourceMap o).map Prod.fst) ∧
    (K8sResourceOptions.init cpu memory (.str "0") (.str "0") =
      .error ConflictingAccelerators) ∧
    (∀ o : K8sResourceOptions, o.nvidia_gpu = .quantity ⟨"0"⟩ →
      YMLSTR.nvidia_gpu ∈ (resourceMap o).map Prod.fst) := by
  refine ⟨rfl, ?_, rfl, ?_⟩
  · intro o ho
    intro hmem
    have h := ((resourceMap_keys o).2.2.1).mp hmem
    rw [ho] at h
    exact absurd h (by decide)
  · intro o ho
    exact ((resourceMap_keys o).2.2.1).mpr (by rw [ho]; rfl)

theorem C10_zero_accelerators_witness :
    (K8sResourceOptions.init 1 "1Gi" (.int 0) (.int 0) =
      .ok { cpu := ⟨"1"⟩, memory := ⟨"1Gi"⟩,
            nvidia_gpu := .raw (.int 0), amd_gpu := .raw (.int 0) }) ∧
    YMLSTR.nvidia_gpu ∉
      (resourceMap { cpu := ⟨"1"⟩, memory := ⟨"1Gi"⟩,
                     nvidia_gpu := .raw (.int 0),
                     amd_gpu := .raw .null }).map Prod.fst ∧
    (K8sResourceOptions.init 1 "1Gi" (.str "0") (.str "0") =
      .error ConflictingAccelerators) ∧
    YMLSTR.nvidia_gpu ∈
      (resourceMap { cpu := ⟨"1"⟩, memory := ⟨"1Gi"⟩,
                     nvidia_gpu := .quantity ⟨"0"⟩,
                     amd_gpu := .raw .null }).map Prod.fst :=
  ⟨(C10_zero_accelerators 1 "1Gi").1,
   (C10_zero_accelerators 1 "1Gi").2.1 _ rfl,
   (C10_zero_accelerators 1 "1Gi").2.2.1,
   (C10_zero_accelerators 1 "1Gi").2.2.2 _ rfl⟩

theorem hasKey_eraseKey_ne (kvs : List (String × Yaml)) (r k : String)
    (h : k ≠ r) :
    hasKey (eraseKey kvs r) k = hasKey kvs k := by
  induction kvs with
  | nil => rfl
  | cons p ps ih =>
    unfold eraseKey at ih ⊢
    rw [List.filter_cons]
    by_cases hp : p.1 = r
    · have h1 : (p.1 != r) = false := by simp [hp]
      have h2 : (p.1 == k) = false := by
        rw [hp]
        exact beq_eq_false_iff_ne.mpr (Ne.symm h)
      rw [h1, if_neg (by simp)]
      unfold hasKey
      rw [List.any_cons, h2, Bool.false_or]
      exact ih
    · have h1 : (p.1 != r) = true := by simp [hp]
      rw [h1, if_pos rfl]
      unfold hasKey
      rw [List.any_cons, List.any_cons]
      unfold hasKey at ih
      rw [ih]

theorem dictGet_of_not_hasKey (kvs : List (String × Yaml)) (k : String)
    (d : Yaml) (h : hasKey kvs k = false) : dictGet kvs k d = d := by
  unfold hasKey at h
  rw [List.any_eq_false] at h
  unfold dictGet dictFind
  rw [List.find?_eq_none.mpr h]
  rfl

/-- Reduction of `processEntry` on a dict entry, for rewriting. -/
theorem processEntry_dict (kvs : List (String × Yaml)) :
    processEntry (.dict kvs) =
      (if !hasKey (eraseKey kvs YMLSTR.resources) YMLSTR.name then
        .error (MissingMandatoryKey YMLSTR.name)
      else if !hasKey (eraseKey kvs YMLSTR.resources) YMLSTR.image then
        .error (MissingMandatoryKey YMLSTR.image)
      else do
        let s ← Submission.init
          (dictGet (eraseKey kvs YMLSTR.resources) YMLSTR.name .null)
          (dictGet (eraseKey kvs YMLSTR.resources) YMLSTR.image .null)
          (dictGet (eraseKey kvs YMLSTR.resources) YMLSTR.armada_queue
            DEFAULT_QUEUE)
          (dictGet (eraseKey kvs YMLSTR.resources) YMLSTR.armada_priority
            DEFAULT_PRIORITY)
          (dictGet (eraseKey kvs YMLSTR.resources) YMLSTR.timeout
            DEFAULT_TIMEOUT)
          Option.none
        if (dictGet kvs YMLSTR.resources .null).truthy then
          s.resources_from_dict (dictGet kvs YMLSTR.resources .null)
        else .ok s) := rfl

/-- Reduction of `get_submissions` on a one-key document, for rewriting. -/
theorem get_submissions_doc (entries : List Yaml) :
    get_submissions (.dict [(YMLSTR.submissions, .list entries)]) =
      entries.mapM processEntry := rfl

/-- C6: an entry lacking the name key (or the image key) makes assembly of
the whole document fail with the MissingMandatoryKey error — no submission
list is produced, and the function performs no network call at all — while
an entry with only the mandatory keys gets the documented defaults for
queue, priority and timeout. -/
theorem C6_mandatory_keys (kvs : List (String × Yaml)) (rest : List Yaml) :
    (hasKey kvs YMLSTR.name = false →
      get_submissions (.dict [(YMLSTR.submissions,
          .list (Yaml.dict kvs :: rest))]) =
        .error (MissingMandatoryKey YMLSTR.name)) ∧
    (hasKey kvs YMLSTR.name = true → hasKey kvs YMLSTR.image = false →
      get_submissions (.dict [(YMLSTR.submissions,
          .list (Yaml.dict kvs :: rest))]) =
        .error (MissingMandatoryKey YMLSTR.image)) ∧
    (hasKey kvs YMLSTR.name = true → hasKey kvs YMLSTR.image = true →
      hasKey kvs YMLSTR.armada_queue = false →
      hasKey kvs YMLSTR.armada_priority = false →
      hasKey kvs YMLSTR.timeout = false →
      (dictGet kvs YMLSTR.resources .null).truthy = false →
      (processEntry (.dict kvs)).isOk = true ∧
      (∀ s, processEntry (.dict kvs) = .ok s →
        s.armada_queue = DEFAULT_QUEUE ∧
        s.armada_priority = DEFAULT_PRIORITY ∧
        timeout_conversionDyn DEFAULT_TIMEOUT = .ok s.timeout ∧
        s.resources = Option.none)) := by
  refine ⟨?_, ?_, ?_⟩
  · intro hname
    have hname2 : hasKey (eraseKey kvs YMLSTR.resources) YMLSTR.name = false := by
      rw [hasKey_eraseKey_ne _ _ _ (by decide)]
      exact hname
    have hperr : processEntry (.dict kvs) =
        .error (MissingMandatoryKey YMLSTR.name) := by
      rw [processEntry_dict, hname2]
      rfl
    rw [get_submissions_doc, List.mapM_cons, hperr]
    rfl
  · intro hname himage
    have hname2 : hasKey (eraseKey kvs YMLSTR.resources) YMLSTR.name = true := by
      rw [hasKey_eraseKey_ne _ _ _ (by decide)]
      exact hname
    have himage2 : hasKey (eraseKey kvs YMLSTR.resources) YMLSTR.image = false := by
      rw [hasKey_eraseKey_ne _ _ _ (by decide)]
      exact himage
    have hperr : processEntry (.dict kvs) =
        .error (MissingMandatoryKey YMLSTR.image) := by
      rw [processEntry_dict, hname2, himage2]
      rfl
    rw [get_submissions_doc, List.mapM_cons, hperr]
    rfl
  · intro hname himage hqueue hpriority htimeout hres
    have hname2 : hasKey (eraseKey kvs YMLSTR.resources) YMLSTR.name = true := by
      rw [hasKey_eraseKey_ne _ _ _ (by decide)]
      exact hname
    have himage2 : hasKey (eraseKey kvs YMLSTR.resources) YMLSTR.image = true := by
      rw [hasKey_eraseKey_ne _ _ _ (by decide)]
      exact himage
    have hq3 : dictGet (eraseKey kvs YMLSTR.resources) YMLSTR.armada_queue
        DEFAULT_QUEUE = DEFAULT_QUEUE := by
      refine dictGet_of_not_hasKey _ _ _ ?_
      rw [hasKey_eraseKey_ne _ _ _ (by decide)]
      exact hqueue
    have hp3 : dictGet (eraseKey kvs YMLSTR.resources) YMLSTR.armada_priority
        DEFAULT_PRIORITY = DEFAULT_PRIORITY := by
      refine dictGet_of_not_hasKey _ _ _ ?_
      rw [hasKey_eraseKey_ne _ _ _ (by decide)]
      exact hpriority
    have ht3 : dictGet (eraseKey kvs YMLSTR.resources) YMLSTR.timeout
        DEFAULT_TIMEOUT = DEFAULT_TIMEOUT := by
      refine dictGet_of_not_hasKey _ _ _ ?_
      rw [hasKey_eraseKey_ne _ _ _ (by decide)]
      exact htimeout
    have hproc : processEntry (.dict kvs) = .ok
        { name := dictGet (eraseKey kvs YMLSTR.resources) YMLSTR.name .null,
          image := dictGet (eraseKey kvs YMLSTR.resources) YMLSTR.image .null,
          armada_queue := DEFAULT_QUEUE, armada_priority := DEFAULT_PRIORITY,
          timeout := "3600s", resources := Option.none } := by
      rw [processEntry_dict, hname2, himage2, hq3, hp3, ht3, hres]
      rfl
    refine ⟨by rw [hproc]; rfl, ?_⟩
    intro s hs
    rw [hproc] at hs
    injection hs with hss
    rw [← hss]
    exact ⟨rfl, rfl, rfl, rfl⟩

theorem C6_mandatory_keys_witness :
    get_submissions (.dict [(YMLSTR.submissions, .list [.dict
      [(YMLSTR.image, .str "i")]])]) =
      .error (MissingMandatoryKey YMLSTR.name) ∧
    get_submissions (.dict [(YMLSTR.submissions, .list [.dict
      [(YMLSTR.name, .str "n")]])]) =
      .error (MissingMandatoryKey YMLSTR.image) ∧
    (processEntry (.dict [(YMLSTR.name, .str "n"),
      (YMLSTR.image, .str "i")])).isOk = true ∧
    subDefaults.armada_queue = DEFAULT_QUEUE ∧
    subDefaults.armada_priority = DEFAULT_PRIORITY ∧
    timeout_conversionDyn DEFAULT_TIMEOUT = .ok subDefaults.timeout ∧
    subDefaults.resources = Option.none := by
  have h3 := (C6_mandatory_keys
    [(YMLSTR.name, .str "n"), (YMLSTR.image, .str "i")] []).2.2
    (by rfl) (by rfl) (by rfl) (by rfl) (by rfl) (by rfl)
  have h4 := h3.2 subDefaults (by rfl)
  exact ⟨(C6_mandatory_keys [(YMLSTR.image, .str "i")] []).1 (by rfl),
    (C6_mandatory_keys [(YMLSTR.name, .str "n")] []).2.1 (by rfl) (by rfl),
    h3.1, h4.1, h4.2.1, h4.2.2.1, h4.2.2.2⟩

/-- C8: the document whose job list holds the single entry
(name nb, image img:tag, timeout 10m) assembles to exactly one Submission
with timeout "600s", the configured default queue and priority, no
resources, and a podspec with exactly one container. -/
theorem C8_end_to_end :
    get_submissions (.dict [(YMLSTR.submissions, .list [.dict
      [(YMLSTR.name, .str "nb"), (YMLSTR.image, .str "img:tag"),
       (YMLSTR.timeout, .str "10m")]])]) = .ok [subC8] ∧
    subC8.timeout = "600s" ∧
    subC8.armada_queue = DEFAULT_QUEUE ∧
    subC8.armada_priority = DEFAULT_PRIORITY ∧
    subC8.resources = Option.none ∧
    (subC8.to_podspec).containers.length = 1 :=
  ⟨rfl, rfl, rfl, rfl, rfl, rfl⟩
